import Mathlib

/-!
Verification development for the untappd-data repository.

The repository consists of four Python scripts:

* `update-untappd-rss-feed-data.py` — polls RSS feeds and writes new posts to
  object storage, guarded by a single numeric watermark (`last_update.json`);
  as committed it contains a `SyntaxError` (line 62) and never loads.
* `parse-untappd-rss-feed-data.py` — parses stored posts into an aggregate CSV
  and a venue list, guarded by a per-brewery parse cursor (`last_parsed.json`).
* `get-untappd-venue-locations.py` — enriches each venue with location data by
  scraping Untappd pages (two hand-rolled HTML scanners) and querying the
  Foursquare search API, with sentinel strings `""` (unresolved, retry later)
  and `"Missing"` (do not retry) stored in a venue dictionary.
* `clean-and-backup-untappd-data.py` — a daily premium pass that re-queries
  Foursquare by venue id for rows containing `"Missing"`, using the sentinel
  `"Unavailable"` for authoritative absence.

Each script's relevant logic is shallowly embedded below as executable Lean
functions over explicit state; upstream HTTP responses are supplied by oracle
arguments (one response value consumed per issued request).
-/

/-- Python `lst[i]` on a list of strings, totalised with `""` for an
out-of-range index (the embedded code only indexes positions that exist in
well-formed rows). -/
def pyGet (l : List String) (i : Nat) : String := l.getD i ""

/-- Python truthiness and stringification of a `bool` (the scripts store the
Python booleans `True`/`False` in rows that are later written to CSV). -/
def pyBool (b : Bool) : String := if b then "True" else "False"

/-- Lookup in an association list modelling a Python `dict` with string keys
(first, and under the no-duplicate-keys invariant only, binding wins). -/
def pyLookup : List (String × List String) → String → Option (List String)
  | [], _ => none
  | (k', v') :: rest, k => if k' = k then some v' else pyLookup rest k

/-- Python `d[k] = v` on a `dict` modelled as an association list: replace the
value at an existing key in place, otherwise append the new binding at the end
(Python dicts preserve insertion order). -/
def pyDictSet : List (String × List String) → String → List String → List (String × List String)
  | [], k, v => [(k, v)]
  | (k', v') :: rest, k, v =>
      if k' = k then (k, v) :: rest else (k', v') :: pyDictSet rest k v

/-- Splitting worker on character lists: cut the input at every occurrence of
the separator.  The fuel argument (instantiated to the input length plus one)
makes the recursion structural so that concrete instances reduce inside the
kernel. -/
def pySplitChars : Nat → List Char → List Char → List Char → List (List Char)
  | _, [], _, acc => [acc.reverse]
  | 0, s, _, acc => [acc.reverse ++ s]
  | n + 1, c :: cs, sep, acc =>
    if sep.isPrefixOf (c :: cs) then
      acc.reverse :: pySplitChars n (List.drop sep.length (c :: cs)) sep []
    else
      pySplitChars n cs sep (c :: acc)

/-- Python `strng.split(sep)` for a non-empty separator: every occurrence of
`sep` cuts the string, with no collapsing of empty pieces. -/
def pySplit (s sep : String) : List String :=
  if sep.data.isEmpty then [s]
  else (pySplitChars (s.data.length + 1) s.data sep.data []).map String.mk

/-- Python `s.split(sep, 1)`: split only at the first occurrence of `sep`. -/
def pySplitOnce (s sep : String) : List String :=
  match pySplit s sep with
  | [] => []
  | x :: rest => if rest.isEmpty then [x] else [x, String.intercalate sep rest]

/-- Python `sub in s` (substring containment, for a non-empty `sub`). -/
def pySubstr (sub s : String) : Bool := (pySplit s sub).length ≥ 2

/-- Python `s.lower()` (character-wise, sufficient for the ASCII data the
scripts compare). -/
def pyLower (s : String) : String := String.mk (s.data.map Char.toLower)

namespace ParseFeed

/-!
Embedding of `parse-untappd-rss-feed-data.py`.
-/

/-- The `split` utility (lines 117–120): split `strng` by the `n`-th occurrence
of `sep`, returning the pair `(sep.join(parts[:n]), sep.join(parts[n:]))`. -/
def split (strng sep : String) (n : Nat) : String × String :=
  let parts := pySplit strng sep
  (String.intercalate sep (parts.take n), String.intercalate sep (parts.drop n))

/-- The hard-coded exception list of beer names containing `" at "`
(line 135 of `parse_post`). -/
def beer_ex_list : List String :=
  ["victory at sea", "murder at schrute farm...death by fire"]

/-- The beverage/venue portion of `parse_post` (lines 133–143): choose the
first or second occurrence of `" at "` depending on exception-list membership,
split the prefix on `" is drinking "`, and drop the first word of what follows
(the article `a`/`an` in real feed titles) to obtain the beverage.  A missing
list index (Python `IndexError`, which aborts the whole parse) is modelled as
`none`. -/
def parseTitle (title : String) : Option (String × String) :=
  let loc_idx : Nat :=
    if beer_ex_list.any (fun sbstr => pySubstr sbstr (pyLower title)) then 2 else 1
  let s := split title " at " loc_idx
  let y := pySplit s.1 " is drinking "
  match y.get? 1 with
  | none => none
  | some seg =>
    match (pySplitOnce seg " ").get? 1 with
    | none => none
    | some beer => some (beer, s.2)

end ParseFeed

namespace UpdateFeed

/-!
Embedding of `update-untappd-rss-feed-data.py`.  A delivered post is
represented by its numeric id.  As committed the script cannot run at all:
line 62 reads `client.get_object(Bucket=,` — a Python `SyntaxError` — so the
module fails to compile at import time and `main` is never entered.  The
admission loop below transcribes the loop *text* (lines 104–117), which is
dead code in the committed script; `scriptRun` models what one invocation of
the script actually does.
-/

/-- One iteration of the admission loop as written (lines 105–113): the
accumulator holds `most_recent_id` and the ids written to storage so far, in
write order.  Dead code in the committed script (see `scriptRun`). -/
def updateStep (last_update_id : Nat) (acc : Nat × List Nat) (post_id : Nat) :
    Nat × List Nat :=
  if post_id > last_update_id then (max acc.1 post_id, acc.2 ++ [post_id])
  else acc

/-- The admission loop over all delivered posts as written (lines 104–117):
the watermark that line 117 would persist, together with the ids that would
be written, in order.  Never executed by the committed script (see
`scriptRun`). -/
def updateRun (last_update_id : Nat) (posts : List Nat) : Nat × List Nat :=
  posts.foldl (updateStep last_update_id) (last_update_id, [])

/-- `get_last_update_id` (lines 60–65) as committed: its body contains
`client.get_object(Bucket=,` (line 62), which is a Python `SyntaxError`.
The module containing it therefore never compiles — importing the script
raises before any statement executes — so the watermark read is modelled as
this load-time failure rather than as a value. -/
def get_last_update_id : Except String Nat :=
  Except.error "SyntaxError: invalid syntax (line 62)"

/-- One invocation of the script as committed.  `main` (lines 91–117) would
read the watermark (line 97), run the admission loop, and persist the new
watermark (line 117); because the module cannot load, the invocation aborts
before any of this, writing no post and persisting no watermark.  The
successful branch shows what a loadable module would compute. -/
def scriptRun (posts : List Nat) : Except String (Nat × List Nat) :=
  match get_last_update_id with
  | Except.error e => Except.error e
  | Except.ok w => Except.ok (updateRun w posts)

end UpdateFeed

namespace ParseFeed

/-- The externally visible storage effects of `main` in
`parse-untappd-rss-feed-data.py`, in program order. -/
inductive MainEvent
  | downloadCsv
  | downloadVenueList
  | appendCsv (rows : List (List String))
  | appendVenues (rows : List (List String))
  | uploadCsv (rows : List (List String))
  | uploadVenueList
  | setLastParsed (ids : List (String × String))
deriving DecidableEq

/-- Effect trace of `main` (lines 192–231) after the row-generation loop:
`rows` are the rows parsed in this run and `ids` the in-memory cursor values
they advanced the cursor to.  When no new rows exist nothing is written;
otherwise the aggregate CSV upload (`upload_parsed_data`, line 229) precedes
the cursor write (`set_last_parsed_ids`, line 231). -/
def mainTrace (rows : List (List String)) (ids : List (String × String)) :
    List MainEvent :=
  if rows.isEmpty then []
  else [.downloadCsv, .downloadVenueList, .appendCsv rows, .appendVenues rows,
        .uploadCsv rows, .uploadVenueList, .setLastParsed ids]

end ParseFeed

namespace Scanner

/-!
Embedding of the two `HTMLParser` subclasses of
`get-untappd-venue-locations.py` as finite-state scanners over a stream of
markup tokens.  A Python `dict`/list subscript that can raise `KeyError` is
modelled in the `Except` monad.
-/

/-- A markup token as delivered by Python's `HTMLParser`: a start tag with its
attribute list, an end tag, or character data. -/
inductive Token
  | start (tag : String) (attributes : List (String × String))
  | close (tag : String)
  | text (s : String)
deriving DecidableEq

/-- First attribute value bound to `key`, scanning in order (the handlers
iterate `attributes` and use the first match). -/
def attrLookup : List (String × String) → String → Option String
  | [], _ => none
  | (n, v) :: rest, key => if n = key then some v else attrLookup rest key

/-- Python `dict(attributes)[key]` as an `Option`: on duplicate attribute
names the last occurrence wins. -/
def pyDictGet (attributes : List (String × String)) (key : String) : Option String :=
  attrLookup attributes.reverse key

/-- State of `CheckinHTMLParser` (lines 55–80): the `found_p` scope flag and
the collected hrefs. -/
structure CheckinSt where
  found_p : Bool
  url : List String
deriving DecidableEq

def checkinInit : CheckinSt := ⟨false, []⟩

/-- `CheckinHTMLParser.handle_starttag` (lines 61–75). -/
def checkinStart (st : CheckinSt) (tag : String)
    (attributes : List (String × String)) : CheckinSt :=
  if tag ≠ "a" ∧ tag ≠ "p" then st
  else if ¬st.found_p ∧ tag = "p"
      ∧ attributes.any (fun nv => nv.1 == "class" && nv.2 == "location") then
    { st with found_p := true }
  else if st.found_p ∧ tag = "a" then
    match attrLookup attributes "href" with
    | some v => { st with url := st.url ++ [v] }
    | none => st
  else st

/-- `CheckinHTMLParser.handle_endtag` (lines 76–78). -/
def checkinClose (st : CheckinSt) (tag : String) : CheckinSt :=
  if tag = "p" then { st with found_p := false } else st

/-- One token of `CheckinHTMLParser.feed`; `handle_data` is a no-op. -/
def checkinStep (st : CheckinSt) : Token → CheckinSt
  | .start tag attributes => checkinStart st tag attributes
  | .close tag => checkinClose st tag
  | .text _ => st

/-- Feed a whole token stream to a fresh `CheckinHTMLParser`.  The scanner is
total: no handler of this class performs a keyed lookup that can raise. -/
def checkinScan (tokens : List Token) : CheckinSt :=
  tokens.foldl checkinStep checkinInit

/-- State of `VenueHTMLParser` (lines 82–117). -/
structure VenueSt where
  found_div : Bool
  urls : List String
  coords : List String
deriving DecidableEq

def venueInit : VenueSt := ⟨false, [], []⟩

/-- `VenueHTMLParser.handle_starttag` (lines 90–112).  The subscripts
`attributes_dict['content']` (line 101) and `attributes_dict['href']`
(line 111) raise `KeyError` when the attribute is absent; this is the
`.error` case. -/
def venueStart (st : VenueSt) (tag : String)
    (attributes : List (String × String)) : Except String VenueSt :=
  if ¬(tag = "div" ∨ tag = "a" ∨ tag = "meta") then .ok st
  else if tag = "meta" ∧ (pyDictGet attributes "property").isSome then
    if pyDictGet attributes "property" = some "place:location:latitude"
        ∨ pyDictGet attributes "property" = some "place:location:longitude" then
      match pyDictGet attributes "content" with
      | some c => .ok { st with coords := st.coords ++ [c] }
      | none => .error "KeyError: content"
    else .ok st
  else if (pyDictGet attributes "class").isNone then .ok st
  else if ¬st.found_div ∧ tag = "div"
      ∧ pyDictGet attributes "class" = some "venue-social" then
    .ok { st with found_div := true }
  else if st.found_div ∧ tag = "a"
      ∧ pyDictGet attributes "class" = some "fs track-click" then
    match pyDictGet attributes "href" with
    | some h => .ok { st with urls := st.urls ++ [(pySplit h "?").headD ""] }
    | none => .error "KeyError: href"
  else .ok st

/-- `VenueHTMLParser.handle_endtag` (lines 113–115). -/
def venueClose (st : VenueSt) (tag : String) : VenueSt :=
  if tag = "div" then { st with found_div := false } else st

/-- One token of `VenueHTMLParser.feed`. -/
def venueStep (st : VenueSt) : Token → Except String VenueSt
  | .start tag attributes => venueStart st tag attributes
  | .close tag => .ok (venueClose st tag)
  | .text _ => .ok st

/-- Feed a whole token stream to a fresh `VenueHTMLParser`; an uncaught
`KeyError` in a handler aborts the feed. -/
def venueScan (tokens : List Token) : Except String VenueSt :=
  tokens.foldlM venueStep venueInit

end Scanner

namespace GetVenues

/-!
Embedding of `get-untappd-venue-locations.py`.  A venue registry row has the
column layout `[untappd_url, foursquare_url, address, lat, long, categories,
in_united_states]` (the venue name is the dictionary key).  The sentinel `""`
means unresolved/retry-later and `"Missing"` means do-not-retry.
-/

/-- Outcome of one `search_untappd` attempt (lines 175–222), abstracting the
two HTTP fetches and the two scanners.  `deleted` covers the four
do-not-retry returns (checkin 404, no location tag, venue 404, missing
Foursquare link or coordinates); `transientFail` the two non-200 retry-later
returns; `ok` the successful return of line 218. -/
inductive UtResp
  | deleted
  | transientFail
  | ok (venueUrl fsUrl lat lng : String)
deriving DecidableEq

/-- The row returned by `search_untappd` for each outcome (its five `return`
statements). -/
def searchUntappdRow : UtResp → List String
  | .deleted => List.replicate 5 "Missing"
  | .transientFail => List.replicate 5 ""
  | .ok venueUrl fsUrl lat lng => [venueUrl, fsUrl, "", lat, lng]

/-- The `location` object of a Foursquare venue; `none` fields model keys
absent from the JSON (Python `KeyError` on direct subscript). -/
structure FsLocation where
  formattedAddress : Option (List String)
  lat : Option String
  lng : Option String
  country : Option String
deriving DecidableEq

/-- A Foursquare category; `none` models a missing `name` key. -/
structure FsCategory where
  name : Option String
deriving DecidableEq

/-- One candidate venue from the Foursquare search response. -/
structure FsCandidate where
  id : String
  location : FsLocation
  categories : List FsCategory
deriving DecidableEq

/-- A Foursquare search API response: HTTP status plus the candidate list
`data['response']['venues']`. -/
structure FsSearchResp where
  status : Nat
  venues : List FsCandidate
deriving DecidableEq

/-- The `try` block of `search_foursquare` (lines 261–278) for one matching
candidate: build `[address, lat, lng, categories, in_united_states]`; any
missing key raises `KeyError`, modelled as `none` (the partial row is
discarded). -/
def extractRow (c : FsCandidate) : Option (List String) := do
  let fa ← c.location.formattedAddress
  let lat ← c.location.lat
  let lng ← c.location.lng
  let cats ←
    if c.categories.isEmpty then pure "Uncategorized"
    else do
      let names ← c.categories.mapM (fun cat => cat.name)
      pure (String.intercalate ", " names)
  let country ← c.location.country
  pure [String.intercalate ", " fa, lat, lng, cats, pyBool (country == "United States")]

/-- The candidate loop of `search_foursquare` (lines 253–278): skip candidates
whose id differs from the one in the Untappd Foursquare link; on a match
return the extracted row, treating a `KeyError` (`extractRow = none`) like a
non-match (`except KeyError: pass`). -/
def findMatch : List FsCandidate → String → Option (List String)
  | [], _ => none
  | c :: rest, venue_id =>
    if c.id ≠ venue_id then findMatch rest venue_id
    else
      match extractRow c with
      | some row => some row
      | none => findMatch rest venue_id

/-- `search_foursquare` (lines 224–280).  `venue_info` is the current registry
row; `resp` is the API response consumed when an HTTP request is actually
issued (which happens exactly when the Foursquare url is not `"Missing"`). -/
def search_foursquare (venue : String) (venue_info : List String)
    (resp : FsSearchResp) : List String :=
  let venue_url := pyGet venue_info 1
  let coords := [pyGet venue_info 3, pyGet venue_info 4]
  if venue_url = "Missing" then List.replicate 5 "Missing"
  else
    let venue_id := (pySplit venue_url "/").getLastD ""
    if resp.status ≠ 200 then "" :: coords ++ ["", ""]
    else
      match findMatch resp.venues venue_id with
      | some row => row
      | none => "Missing" :: coords ++ ["Missing", "Missing"]

/-- State of the enrichment loop of `main` (lines 289–344): the venue
registry, the `foursquare_available` circuit-breaker flag, counters of issued
upstream requests (one `search_untappd` attempt, one Foursquare HTTP call),
and whether the loop was exited by `break`. -/
structure GetSt where
  dict : List (String × List String)
  foursquare_available : Bool
  utCalls : Nat
  fsCalls : Nat
  stopped : Bool
deriving DecidableEq

/-- Loop state on entry to `main`'s loop (line 306). -/
def getInit (venue_dict : List (String × List String)) : GetSt :=
  ⟨venue_dict, true, 0, 0, false⟩

/-- One iteration of the enrichment loop (lines 309–334) for the venue-list
entry `venue = (name, checkin_url)`.  The oracles `uo`/`fo` supply upstream
responses, indexed by how many requests of that kind were issued before. -/
def getStep (uo : Nat → UtResp) (fo : Nat → FsSearchResp) (st : GetSt)
    (venue : String × String) : GetSt :=
  if st.stopped then st
  else
    let name := venue.1
    let existing := pyLookup st.dict name
    let needUt : Bool := existing.isNone || pyGet (existing.getD []) 0 == ""
    let row1 : List String :=
      if needUt then searchUntappdRow (uo st.utCalls) ++ ["", ""]
      else existing.getD []
    let st1 : GetSt :=
      if needUt then
        { st with dict := pyDictSet st.dict name row1, utCalls := st.utCalls + 1 }
      else st
    if needUt ∧ pyGet row1 0 = "" then { st1 with stopped := true }
    else if st1.foursquare_available ∧ pyGet row1 1 ≠ "" ∧ "" ∈ row1 then
      let slice := search_foursquare name row1 (fo st1.fsCalls)
      let row2 := row1.take 2 ++ slice
      { st1 with
        dict := pyDictSet st1.dict name row2,
        fsCalls := if pyGet row1 1 = "Missing" then st1.fsCalls else st1.fsCalls + 1,
        foursquare_available :=
          if "" ∈ slice then false else st1.foursquare_available }
    else st1

/-- The whole enrichment loop over the venue list. -/
def getRun (uo : Nat → UtResp) (fo : Nat → FsSearchResp)
    (venues : List (String × String)) (st : GetSt) : GetSt :=
  venues.foldl (getStep uo fo) st

/-- The data rows written by `write_dict_to_csv` (lines 161–173, used by
`backup_data`): one row per registry entry, venue name first, in dictionary
order. -/
def csvRows (venue_dict : List (String × List String)) : List (List String) :=
  venue_dict.map (fun p => p.1 :: p.2)

end GetVenues

namespace CleanBackup

/-!
Embedding of `clean-and-backup-untappd-data.py` (the daily premium pass).
Rows have the same column layout as in `GetVenues`; the premium pass uses the
additional sentinel `"Unavailable"` for authoritative absence.
-/

/-- The venue object of a Foursquare details response:
`data['response']['venue']` with its `location` and `categories` members. -/
structure VenuePayload where
  location : GetVenues.FsLocation
  categories : List GetVenues.FsCategory
deriving DecidableEq

/-- A Foursquare details API response: HTTP status plus the venue payload;
`none` models a `KeyError` anywhere on the path
`data['response']['venue']['location']` / `['categories']` (lines 116–121). -/
structure CleanResp where
  status : Nat
  payload : Option VenuePayload
deriving DecidableEq

/-- `safe_dict` (lines 90–95): a missing key yields `'Unavailable'`. -/
def safe_dict (v : Option String) : String := v.getD "Unavailable"

/-- `search_foursquare` of the premium pass (lines 97–140): fetch venue
details by id.  HTTP 400 is authoritative absence, any other non-200 is
transient (`'Missing'`, try again later), and missing individual keys in a
successful response degrade to `'Unavailable'` via `safe_dict`. -/
def search_foursquare (foursquare_url : String) (coords : List String)
    (resp : CleanResp) : List String :=
  if resp.status = 400 then "Unavailable" :: coords ++ ["Unavailable", "Unavailable"]
  else if resp.status ≠ 200 then "Missing" :: coords ++ ["Missing", "Missing"]
  else
    match resp.payload with
    | none => "Unavailable" :: coords ++ ["Unavailable", "Unavailable"]
    | some p =>
      let address_list :=
        match p.location.formattedAddress with
        | some l => l
        | none => ["Unavailable"]
      let addr := String.intercalate ", " address_list
      let cats :=
        if p.categories.isEmpty then "Uncategorized"
        else String.intercalate ", "
          (p.categories.map (fun c => safe_dict c.name))
      let country := safe_dict p.location.country
      let in_us :=
        if country = "Unavailable" then "Unavailable"
        else pyBool (country == "United States")
      [addr, safe_dict p.location.lat, safe_dict p.location.lng, cats, in_us]

/-- State of the premium completion loop (lines 177–190). -/
structure CleanSt where
  dict : List (String × List String)
  calls : Nat
  broke : Bool
deriving DecidableEq

/-- One iteration of the premium loop for the registry key `venue`.  Rows in
which `'Missing'` does not occur, or whose Foursquare url is `'Missing'`, are
skipped (line 181); otherwise a details request is issued, the last five
columns are replaced, and the loop breaks when column 3 (the *lat* column)
of the updated row equals `'Missing'` (lines 188–190). -/
def cleanStep (oracle : Nat → CleanResp) (st : CleanSt) (venue : String) : CleanSt :=
  if st.broke then st
  else
    match pyLookup st.dict venue with
    | none => st
    | some venue_data =>
      let foursquare_url := pyGet venue_data 1
      let coords := [pyGet venue_data 3, pyGet venue_data 4]
      if ¬("Missing" ∈ venue_data) ∨ foursquare_url = "Missing" then st
      else
        let slice := search_foursquare foursquare_url coords (oracle st.calls)
        let venue_data2 := venue_data.take 2 ++ slice
        let st2 : CleanSt := ⟨pyDictSet st.dict venue venue_data2, st.calls + 1, st.broke⟩
        if pyGet venue_data2 3 = "Missing" then { st2 with broke := true } else st2

/-- The whole premium loop: iterate over the registry keys in order
(`venue_dict.items()`), threading the mutated registry. -/
def cleanRun (oracle : Nat → CleanResp)
    (venue_dict : List (String × List String)) : CleanSt :=
  (venue_dict.map Prod.fst).foldl (cleanStep oracle) ⟨venue_dict, 0, false⟩

end CleanBackup

/-!
Helper lemmas.
-/


theorem pyLookup_pyDictSet_self (d : List (String × List String)) (k : String)
    (v : List String) : pyLookup (pyDictSet d k v) k = some v := by
  induction d with
  | nil => simp [pyDictSet, pyLookup]
  | cons p rest ih =>
    obtain ⟨k', v'⟩ := p
    by_cases h : k' = k
    · simp [pyDictSet, h, pyLookup]
    · simp [pyDictSet, h, pyLookup, ih]

theorem pyLookup_pyDictSet_ne (d : List (String × List String)) (k k' : String)
    (v : List String) (h : k' ≠ k) :
    pyLookup (pyDictSet d k v) k' = pyLookup d k' := by
  induction d with
  | nil => simp [pyDictSet, pyLookup, Ne.symm h]
  | cons p rest ih =>
    obtain ⟨k0, v0⟩ := p
    by_cases h0 : k0 = k
    · subst h0
      simp [pyDictSet, pyLookup, Ne.symm h]
    · simp [pyDictSet, h0, pyLookup, ih]

theorem keys_pyDictSet (d : List (String × List String)) (k : String) (v : List String) :
    (pyDictSet d k v).map Prod.fst
      = if (pyLookup d k).isSome then d.map Prod.fst else d.map Prod.fst ++ [k] := by
  induction d with
  | nil => simp [pyDictSet, pyLookup]
  | cons p rest ih =>
    obtain ⟨k0, v0⟩ := p
    by_cases h0 : k0 = k
    · simp [pyDictSet, h0, pyLookup]
    · simp [pyDictSet, h0, pyLookup, ih]
      by_cases hs : (pyLookup rest k).isSome <;> simp [hs]

theorem pyLookup_none_iff (d : List (String × List String)) (k : String) :
    pyLookup d k = none ↔ k ∉ d.map Prod.fst := by
  induction d with
  | nil => simp [pyLookup]
  | cons p rest ih =>
    obtain ⟨k0, v0⟩ := p
    by_cases h0 : k0 = k
    · simp [pyLookup, h0]
    · simp [pyLookup, h0, ih, Ne.symm h0]

theorem nodup_keys_pyDictSet (d : List (String × List String)) (k : String)
    (v : List String) (h : (d.map Prod.fst).Nodup) :
    ((pyDictSet d k v).map Prod.fst).Nodup := by
  rw [keys_pyDictSet]
  by_cases hs : (pyLookup d k).isSome
  · simpa [hs] using h
  · have hk : k ∉ d.map Prod.fst := by
      rw [← pyLookup_none_iff]
      exact Option.not_isSome_iff_eq_none.mp hs
    simp [hs, List.nodup_append, h, hk]

namespace GetVenues

theorem getStep_resolved (uo : Nat → UtResp) (fo : Nat → FsSearchResp)
    (st : GetSt) (v : String × String) (row : List String)
    (hs : st.stopped = false)
    (hl : pyLookup st.dict v.1 = some row)
    (h0 : pyGet row 0 ≠ "")
    (hne : "" ∉ row) :
    getStep uo fo st v = st := by
  have hb : (pyGet row 0 == "") = false := beq_eq_false_iff_ne.mpr h0
  simp [getStep, hs, hl, hb, hne]

theorem getStep_dict_cases (uo : Nat → UtResp) (fo : Nat → FsSearchResp)
    (st : GetSt) (v : String × String) :
    (getStep uo fo st v).dict = st.dict
    ∨ (∃ r, (getStep uo fo st v).dict = pyDictSet st.dict v.1 r)
    ∨ (∃ r r', (getStep uo fo st v).dict
        = pyDictSet (pyDictSet st.dict v.1 r) v.1 r') := by
  by_cases hs : st.stopped = true
  · left; simp [getStep, hs]
  · have hs' : st.stopped = false := by simpa using hs
    by_cases hUt : ((pyLookup st.dict v.1).isNone
        || (pyGet ((pyLookup st.dict v.1).getD []) 0 == "")) = true
    · by_cases h1 : pyGet (searchUntappdRow (uo st.utCalls) ++ ["", ""]) 0 = ""
      · right; left
        refine ⟨searchUntappdRow (uo st.utCalls) ++ ["", ""], ?_⟩
        simp [getStep, hs', hUt, h1]
      · by_cases h2 : st.foursquare_available = true
            ∧ pyGet (searchUntappdRow (uo st.utCalls) ++ ["", ""]) 1 ≠ ""
        · right; right
          refine ⟨searchUntappdRow (uo st.utCalls) ++ ["", ""],
            List.take 2 (searchUntappdRow (uo st.utCalls) ++ ["", ""])
              ++ search_foursquare v.1 (searchUntappdRow (uo st.utCalls) ++ ["", ""])
                  (fo (if ((pyLookup st.dict v.1).isNone
                        || (pyGet ((pyLookup st.dict v.1).getD []) 0 == "")) then st.fsCalls
                       else st.fsCalls)), ?_⟩
          simp [getStep, hs', hUt, h1, h2]
        · right; left
          refine ⟨searchUntappdRow (uo st.utCalls) ++ ["", ""], ?_⟩
          simp [getStep, hs', hUt, h1, h2]
    · have hUt' : ((pyLookup st.dict v.1).isNone
          || (pyGet ((pyLookup st.dict v.1).getD []) 0 == "")) = false := by
        rwa [Bool.not_eq_true] at hUt
      by_cases h2 : st.foursquare_available = true
          ∧ pyGet ((pyLookup st.dict v.1).getD []) 1 ≠ ""
          ∧ "" ∈ (pyLookup st.dict v.1).getD []
      · right; left
        refine ⟨List.take 2 ((pyLookup st.dict v.1).getD [])
          ++ search_foursquare v.1 ((pyLookup st.dict v.1).getD []) (fo st.fsCalls), ?_⟩
        simp [getStep, hs', hUt', h2]
      · left; simp [getStep, hs', hUt', h2]

theorem getStep_nodup (uo : Nat → UtResp) (fo : Nat → FsSearchResp)
    (st : GetSt) (v : String × String)
    (h : (st.dict.map Prod.fst).Nodup) :
    (((getStep uo fo st v).dict).map Prod.fst).Nodup := by
  rcases getStep_dict_cases uo fo st v with hc | ⟨r, hc⟩ | ⟨r, r', hc⟩
  · rw [hc]; exact h
  · rw [hc]; exact nodup_keys_pyDictSet _ _ _ h
  · rw [hc]; exact nodup_keys_pyDictSet _ _ _ (nodup_keys_pyDictSet _ _ _ h)

theorem getRun_nodup (uo : Nat → UtResp) (fo : Nat → FsSearchResp)
    (venues : List (String × String)) (st : GetSt)
    (h : (st.dict.map Prod.fst).Nodup) :
    (((getRun uo fo venues st).dict).map Prod.fst).Nodup := by
  induction venues generalizing st with
  | nil => exact h
  | cons v vs ih => exact ih (getStep uo fo st v) (getStep_nodup uo fo st v h)

theorem mem_csvRows (D : List (String × List String)) (n : String) (row : List String) :
    (n, row) ∈ D ↔ (n :: row) ∈ csvRows D := by
  constructor
  · intro h
    exact List.mem_map_of_mem (fun p => p.1 :: p.2) h
  · intro h
    rcases List.mem_map.mp h with ⟨⟨a, b⟩, hm, he⟩
    simp only [List.cons.injEq] at he
    rcases he with ⟨h1, h2⟩
    subst h1; subst h2
    exact hm

end GetVenues

theorem pyGet_oob (l : List String) (i : Nat) (h : l.length ≤ i) : pyGet l i = "" := by
  simp [pyGet, List.getD, List.getElem?_eq_none h]

namespace CleanBackup

theorem cleanStep_skip_noMissing (oracle : Nat → CleanResp) (st : CleanSt)
    (venue : String) (data : List String)
    (hl : pyLookup st.dict venue = some data)
    (hm : "Missing" ∉ data) :
    cleanStep oracle st venue = st := by
  by_cases hb : st.broke = true
  · simp [cleanStep, hb]
  · have hb' : st.broke = false := by rwa [Bool.not_eq_true] at hb
    simp [cleanStep, hb', hl, hm]

theorem cleanStep_skip_missingUrl (oracle : Nat → CleanResp) (st : CleanSt)
    (venue : String) (data : List String)
    (hl : pyLookup st.dict venue = some data)
    (hu : pyGet data 1 = "Missing") :
    cleanStep oracle st venue = st := by
  by_cases hb : st.broke = true
  · simp [cleanStep, hb]
  · have hb' : st.broke = false := by rwa [Bool.not_eq_true] at hb
    simp [cleanStep, hb', hl, hu]

theorem cleanStep_preserves_urls (oracle : Nat → CleanResp) (st : CleanSt)
    (venue : String) (data : List String)
    (hl : pyLookup st.dict venue = some data)
    (hlen : 2 ≤ data.length) :
    ∃ data', pyLookup (cleanStep oracle st venue).dict venue = some data'
      ∧ pyGet data' 0 = pyGet data 0 ∧ pyGet data' 1 = pyGet data 1 := by
  by_cases hb : st.broke = true
  · exact ⟨data, by simp [cleanStep, hb, hl], rfl, rfl⟩
  · have hb' : st.broke = false := by rwa [Bool.not_eq_true] at hb
    by_cases hskip : ¬("Missing" ∈ data) ∨ pyGet data 1 = "Missing"
    · refine ⟨data, ?_, rfl, rfl⟩
      rcases hskip with hm | hu
      · rw [cleanStep_skip_noMissing oracle st venue data hl hm]; exact hl
      · rw [cleanStep_skip_missingUrl oracle st venue data hl hu]; exact hl
    · push_neg at hskip
      rcases data with _ | ⟨d0, data⟩
      · simp at hlen
      rcases data with _ | ⟨d1, rest⟩
      · simp at hlen
      refine ⟨d0 :: d1
          :: search_foursquare (pyGet (d0 :: d1 :: rest) 1)
              [pyGet (d0 :: d1 :: rest) 3, pyGet (d0 :: d1 :: rest) 4]
              (oracle st.calls), ?_, by simp [pyGet], by simp [pyGet]⟩
      have hm : "Missing" ∈ (d0 :: d1 :: rest) := hskip.1
      have hu : ¬ pyGet (d0 :: d1 :: rest) 1 = "Missing" := hskip.2
      by_cases h3 : pyGet (d0 :: d1
          :: search_foursquare (pyGet (d0 :: d1 :: rest) 1)
              [pyGet (d0 :: d1 :: rest) 3, pyGet (d0 :: d1 :: rest) 4]
              (oracle st.calls)) 3 = "Missing"
      · simp [cleanStep, hb', hl, hm, hu, h3, pyLookup_pyDictSet_self]
      · simp [cleanStep, hb', hl, hm, hu, h3, pyLookup_pyDictSet_self]

end CleanBackup

namespace GetVenues

theorem getStep_preserves_urls (uo : Nat → UtResp) (fo : Nat → FsSearchResp)
    (st : GetSt) (v : String × String) (row : List String)
    (hl : pyLookup st.dict v.1 = some row)
    (h0 : pyGet row 0 ≠ "") :
    ∃ row', pyLookup (getStep uo fo st v).dict v.1 = some row'
      ∧ pyGet row' 0 = pyGet row 0 ∧ pyGet row' 1 = pyGet row 1 := by
  by_cases hs : st.stopped = true
  · exact ⟨row, by simp [getStep, hs, hl], rfl, rfl⟩
  · have hs' : st.stopped = false := by rwa [Bool.not_eq_true] at hs
    have hb : (pyGet row 0 == "") = false := beq_eq_false_iff_ne.mpr h0
    by_cases h2 : st.foursquare_available = true ∧ pyGet row 1 ≠ "" ∧ "" ∈ row
    · have hlen : 2 ≤ row.length := by
        by_contra hcon
        push_neg at hcon
        exact h2.2.1 (pyGet_oob row 1 (by omega))
      obtain ⟨hfa, hne1, hmem⟩ := h2
      rcases row with _ | ⟨r0, row⟩
      · simp at hlen
      rcases row with _ | ⟨r1, rest⟩
      · simp at hlen
      refine ⟨r0 :: r1 :: search_foursquare v.1 (r0 :: r1 :: rest) (fo st.fsCalls),
        ?_, by simp [pyGet], by simp [pyGet]⟩
      simp [getStep, hs', hl, hb, hfa, hne1, hmem, pyLookup_pyDictSet_self]
    · exact ⟨row, by simp [getStep, hs', hl, hb, h2], rfl, rfl⟩

theorem getStep_frame (uo : Nat → UtResp) (fo : Nat → FsSearchResp)
    (st : GetSt) (v : String × String) (other : String) (hne : other ≠ v.1) :
    pyLookup (getStep uo fo st v).dict other = pyLookup st.dict other := by
  rcases getStep_dict_cases uo fo st v with hc | ⟨r, hc⟩ | ⟨r, r', hc⟩
  · rw [hc]
  · rw [hc, pyLookup_pyDictSet_ne _ _ _ _ hne]
  · rw [hc, pyLookup_pyDictSet_ne _ _ _ _ hne, pyLookup_pyDictSet_ne _ _ _ _ hne]

end GetVenues

namespace CleanBackup

theorem cleanStep_dict_cases (oracle : Nat → CleanResp) (st : CleanSt) (venue : String) :
    (cleanStep oracle st venue).dict = st.dict
    ∨ ∃ r, (cleanStep oracle st venue).dict = pyDictSet st.dict venue r := by
  by_cases hb : st.broke = true
  · left; simp [cleanStep, hb]
  · have hb' : st.broke = false := by rwa [Bool.not_eq_true] at hb
    rcases hlk : pyLookup st.dict venue with _ | data
    · left; simp [cleanStep, hb', hlk]
    · by_cases hskip : ¬("Missing" ∈ data) ∨ pyGet data 1 = "Missing"
      · left
        rcases hskip with hm | hu
        · rw [cleanStep_skip_noMissing oracle st venue data hlk hm]
        · rw [cleanStep_skip_missingUrl oracle st venue data hlk hu]
      · push_neg at hskip
        right
        refine ⟨data.take 2 ++ search_foursquare (pyGet data 1)
            [pyGet data 3, pyGet data 4] (oracle st.calls), ?_⟩
        by_cases h3 : pyGet (data.take 2 ++ search_foursquare (pyGet data 1)
            [pyGet data 3, pyGet data 4] (oracle st.calls)) 3 = "Missing"
        · simp [cleanStep, hb', hlk, hskip.1, hskip.2, h3]
        · simp [cleanStep, hb', hlk, hskip.1, hskip.2, h3]

theorem cleanStep_frame (oracle : Nat → CleanResp) (st : CleanSt)
    (venue other : String) (hne : other ≠ venue) :
    pyLookup (cleanStep oracle st venue).dict other = pyLookup st.dict other := by
  rcases cleanStep_dict_cases oracle st venue with hc | ⟨r, hc⟩
  · rw [hc]
  · rw [hc, pyLookup_pyDictSet_ne _ _ _ _ hne]

end CleanBackup

namespace Scanner

theorem checkinStep_no_container (st : CheckinSt) (t : Token)
    (hq : ∀ attrs, t = Token.start "p" attrs →
      attrs.any (fun nv => nv.1 == "class" && nv.2 == "location") = false)
    (hst : st.found_p = false) :
    (checkinStep st t).found_p = false ∧ (checkinStep st t).url = st.url := by
  cases t with
  | start tag attrs =>
    by_cases hp : tag = "p"
    · subst hp
      have hcl := hq attrs rfl
      simp [checkinStep, checkinStart, hcl, hst]
    · by_cases ha : tag = "a"
      · subst ha
        simp [checkinStep, checkinStart, hst]
      · simp [checkinStep, checkinStart, hp, ha, hst]
  | close tag =>
    by_cases hp : tag = "p" <;> simp [checkinStep, checkinClose, hp, hst]
  | text s => exact ⟨hst, rfl⟩

theorem checkinScan_aux (tokens : List Token) : ∀ (st : CheckinSt),
    (∀ attrs, Token.start "p" attrs ∈ tokens →
      attrs.any (fun nv => nv.1 == "class" && nv.2 == "location") = false) →
    st.found_p = false →
    (tokens.foldl checkinStep st).found_p = false
    ∧ (tokens.foldl checkinStep st).url = st.url := by
  induction tokens with
  | nil => exact fun st _ h => ⟨h, rfl⟩
  | cons t ts ih =>
    intro st hq hst
    have hstep := checkinStep_no_container st t
      (fun attrs ht => hq attrs (by rw [← ht]; exact List.mem_cons_self t ts)) hst
    have hrest := ih (checkinStep st t)
      (fun attrs hm => hq attrs (List.mem_cons_of_mem t hm)) hstep.1
    exact ⟨hrest.1, hrest.2.trans hstep.2⟩

theorem checkinScan_absent_empty (tokens : List Token)
    (hq : ∀ attrs, Token.start "p" attrs ∈ tokens →
      attrs.any (fun nv => nv.1 == "class" && nv.2 == "location") = false) :
    (checkinScan tokens).url = [] :=
  (checkinScan_aux tokens checkinInit hq rfl).2

theorem venueStep_no_container (st : VenueSt) (t : Token) (s1 : VenueSt)
    (hq : ∀ attrs, t = Token.start "div" attrs →
      pyDictGet attrs "class" ≠ some "venue-social")
    (hst : st.found_div = false)
    (hok : venueStep st t = .ok s1) :
    s1.found_div = false ∧ s1.urls = st.urls := by
  cases t with
  | start tag attrs =>
    by_cases hdiv : tag = "div"
    · subst hdiv
      have hcl := hq attrs rfl
      rcases hc : pyDictGet attrs "class" with _ | cl
      · simp [venueStep, venueStart, hc] at hok
        simp [← hok, hst]
      · by_cases hv : cl = "venue-social"
        · exact absurd (by rw [hc, hv]) hcl
        · simp [venueStep, venueStart, hc, hv, hst] at hok
          simp [← hok, hst]
    · by_cases hmeta : tag = "meta"
      · subst hmeta
        rcases hprop : pyDictGet attrs "property" with _ | prop
        · rcases hcls : pyDictGet attrs "class" with _ | cl
          · simp [venueStep, venueStart, hprop, hcls] at hok
            simp [← hok, hst]
          · simp [venueStep, venueStart, hprop, hcls, hst] at hok
            simp [← hok, hst]
        · by_cases hla : prop = "place:location:latitude"
          · rcases hcont : pyDictGet attrs "content" with _ | c
            · exfalso
              simp [venueStep, venueStart, hprop, hla, hcont] at hok
            · simp [venueStep, venueStart, hprop, hla, hcont] at hok
              simp [← hok, hst]
          · by_cases hlo : prop = "place:location:longitude"
            · rcases hcont : pyDictGet attrs "content" with _ | c
              · exfalso
                simp [venueStep, venueStart, hprop, hla, hlo, hcont] at hok
              · simp [venueStep, venueStart, hprop, hla, hlo, hcont] at hok
                simp [← hok, hst]
            · simp [venueStep, venueStart, hprop, hla, hlo] at hok
              simp [← hok, hst]
      · by_cases hA : tag = "a"
        · subst hA
          rcases hcls : pyDictGet attrs "class" with _ | cl
          · simp [venueStep, venueStart, hcls] at hok
            simp [← hok, hst]
          · simp [venueStep, venueStart, hcls, hst] at hok
            simp [← hok, hst]
        · simp [venueStep, venueStart, hdiv, hmeta, hA] at hok
          simp [← hok, hst]
  | close tag =>
      by_cases hd : tag = "div" <;>
        · simp [venueStep, venueClose, hd] at hok
          simp [← hok, hst]
  | text s =>
      simp [venueStep] at hok
      simp [← hok, hst]

theorem venueScan_aux (tokens : List Token) : ∀ (st st' : VenueSt),
    (∀ attrs, Token.start "div" attrs ∈ tokens →
      pyDictGet attrs "class" ≠ some "venue-social") →
    st.found_div = false →
    tokens.foldlM venueStep st = .ok st' →
    st'.found_div = false ∧ st'.urls = st.urls := by
  induction tokens with
  | nil =>
    intro st st' _ hst hok
    simp only [List.foldlM_nil, pure, Except.pure, Except.ok.injEq] at hok
    subst hok
    exact ⟨hst, rfl⟩
  | cons t ts ih =>
    intro st st' hq hst hok
    rw [List.foldlM_cons] at hok
    rcases hstep : venueStep st t with e | s1
    · rw [hstep] at hok
      simp only [bind, Except.bind] at hok
      cases hok
    · rw [hstep] at hok
      simp only [bind, Except.bind] at hok
      have h1 := venueStep_no_container st t s1
        (fun attrs ht => hq attrs (by rw [← ht]; exact List.mem_cons_self t ts)) hst hstep
      have h2 := ih s1 st' (fun attrs hm => hq attrs (List.mem_cons_of_mem t hm)) h1.1 hok
      exact ⟨h2.1, h2.2.trans h1.2⟩

theorem venueScan_absent_empty (tokens : List Token) (st' : VenueSt)
    (hq : ∀ attrs, Token.start "div" attrs ∈ tokens →
      pyDictGet attrs "class" ≠ some "venue-social")
    (hok : venueScan tokens = .ok st') : st'.urls = [] :=
  (venueScan_aux tokens venueInit st' hq rfl hok).2

end Scanner

namespace GetVenues

theorem getRun_resolved_eq (uo : Nat → UtResp) (fo : Nat → FsSearchResp) :
    ∀ (venues : List (String × String)) (st : GetSt), st.stopped = false →
    (∀ v ∈ venues, ∃ row, pyLookup st.dict v.1 = some row
      ∧ pyGet row 0 ≠ "" ∧ "" ∉ row) →
    getRun uo fo venues st = st
  | [], _, _, _ => rfl
  | v :: vs, st, hs, h => by
    obtain ⟨row, hl, h0, hne⟩ := h v (List.mem_cons_self v vs)
    have hstep := getStep_resolved uo fo st v row hs hl h0 hne
    show getRun uo fo vs (getStep uo fo st v) = st
    rw [hstep]
    exact getRun_resolved_eq uo fo vs st hs
      (fun u hu => h u (List.mem_cons_of_mem v hu))

end GetVenues

/-!
Claim theorems.
-/

/-- C4, counterexample.  On the spec's article-less title shape the embedded
parser does not produce the claimed results: `parse_post` drops the first
word after `" is drinking "` (the article `a`/`an` present in real feed
titles), so the first example loses the word `Victory`, and for the other two
examples the segment after `" is drinking "` is a single word, so the index
`[1]` taken after `split(' ', 1)` does not exist (`IndexError`, modelled as
`none`). -/
theorem c4_title_examples_counterexample :
    ParseFeed.parseTitle "alice is drinking Victory at Sea Stout at The Brewery"
        = some ("at Sea Stout", "The Brewery")
    ∧ ("at Sea Stout" : String) ≠ "Victory at Sea Stout"
    ∧ ParseFeed.parseTitle "bob is drinking IPA at Taproom" = none
    ∧ ParseFeed.parseTitle "carol is drinking Pilsner" = none := by decide

/-- C4, amended.  On titles of the shape actually delivered by the feed,
`"<actor> is drinking <article> <beverage>[ at <venue>]"`, title parsing
yields the example results: the exception-list title gives beverage
`"Victory at Sea Stout"` and venue `"The Brewery"`, the plain title gives
`"IPA"`/`"Taproom"`, and a title without the `" at "` delimiter gives the
empty venue. -/
theorem c4_title_examples_amended :
    ParseFeed.parseTitle "alice is drinking a Victory at Sea Stout at The Brewery"
        = some ("Victory at Sea Stout", "The Brewery")
    ∧ ParseFeed.parseTitle "bob is drinking an IPA at Taproom"
        = some ("IPA", "Taproom")
    ∧ ParseFeed.parseTitle "carol is drinking a Pilsner"
        = some ("Pilsner", "") := by decide

/-- C5: the ingestion script as committed cannot exhibit any admission
behaviour at all.  Line 62 (`client.get_object(Bucket=,`) is a Python
`SyntaxError`, so the module fails at load time on every invocation: for
every sequence of delivered posts — in particular for a single new post with
id 5 over stored watermark 0 — the run aborts before `main`, no post is
written to storage, and no watermark is read or persisted, whereas the claim
requires such a post to be admitted exactly once and the watermark to
advance.  The evident intent (every sibling S3 call passes
`Bucket=untappd_bucket`, and the function's docstring says it reads
`last_update.json`) is the spec's watermark semantics; the committed code is
a slip that prevents any of it from running. -/
theorem c5_script_load_fails (posts : List Nat) :
    UpdateFeed.scriptRun posts
      = Except.error "SyntaxError: invalid syntax (line 62)" := rfl

/-- C6: in every run of the parse script, the durable cursor write
(`set_last_parsed_ids`) occurs in the effect trace only after the upload of
the aggregate CSV containing the rows parsed in that run, so an advanced
cursor is never paired with a lost record. -/
theorem c6_cursor_after_upload (rows : List (List String))
    (ids : List (String × String)) :
    ∀ i, (ParseFeed.mainTrace rows ids).get? i
          = some (ParseFeed.MainEvent.setLastParsed ids) →
      ∃ j, j < i ∧ (ParseFeed.mainTrace rows ids).get? j
          = some (ParseFeed.MainEvent.uploadCsv rows) := by
  intro i hi
  by_cases hr : rows.isEmpty
  · simp [ParseFeed.mainTrace, hr] at hi
  · match i with
    | 0 | 1 | 2 | 3 | 4 | 5 => simp [ParseFeed.mainTrace, hr] at hi
    | 6 => exact ⟨4, by omega, by simp [ParseFeed.mainTrace, hr]⟩
    | n + 7 => simp [ParseFeed.mainTrace, hr] at hi

/-- C6 witness: a concrete one-row run, where the cursor write sits at
index 6 of the trace and the CSV upload indeed precedes it. -/
theorem c6_cursor_after_upload_witness :
    ∃ j, j < 6 ∧ (ParseFeed.mainTrace [["r"]] [("68", "5")]).get? j
        = some (ParseFeed.MainEvent.uploadCsv [["r"]]) :=
  c6_cursor_after_upload [["r"]] [("68", "5")] 6 (by decide)

/-- C1, counterexample.  A reconciliation step can change a field that is
already Resolved: the registry row for `V` holds the concrete (Resolved)
latitude `"40.0"` and longitude `"-75.0"`, yet one premium fetch-by-id step —
triggered by the row's `"Missing"` address — answers with a venue payload that
lacks the `lat`/`lng` keys, and the step overwrites the Resolved coordinates
with the permanent sentinel `"Unavailable"` (a Resolved →
PermanentlyUnavailable downgrade; `"40.0"` is none of the three sentinel
values, so it was not Unresolved). -/
theorem c1_resolved_downgraded_counterexample :
    pyLookup (CleanBackup.cleanRun
        (fun _ => ⟨200, some ⟨⟨some ["1 Main St"], none, none, some "United States"⟩, []⟩⟩)
        [("V", ["u", "f", "Missing", "40.0", "-75.0", "Missing", "Missing"])]).dict "V"
      = some ["u", "f", "1 Main St", "Unavailable", "Unavailable", "Uncategorized", "True"]
    ∧ ("40.0" : String) ≠ "" ∧ ("40.0" : String) ≠ "Missing"
    ∧ ("40.0" : String) ≠ "Unavailable" ∧ ("Unavailable" : String) ≠ "40.0" := by decide

/-- C1, amended.  What monotonicity survives: a reconciliation step of either
pass never changes the two source-url columns of an existing record whose
scraped url is non-empty, and never touches records other than the one it is
processing.  The five attribute columns, however, are overwritten wholesale
whenever a step fires, so an already-Resolved attribute (e.g. latitude) can be
changed or downgraded by a successful or partially-successful response, as the
counterexample shows. -/
theorem c1_field_monotonicity_amended :
    (∀ (uo : Nat → GetVenues.UtResp) (fo : Nat → GetVenues.FsSearchResp)
        (st : GetVenues.GetSt) (v : String × String) (row : List String),
        st.stopped = false → pyLookup st.dict v.1 = some row → pyGet row 0 ≠ "" →
        ∃ row', pyLookup (GetVenues.getStep uo fo st v).dict v.1 = some row'
          ∧ pyGet row' 0 = pyGet row 0 ∧ pyGet row' 1 = pyGet row 1)
    ∧ (∀ (oracle : Nat → CleanBackup.CleanResp) (st : CleanBackup.CleanSt)
        (venue : String) (data : List String),
        pyLookup st.dict venue = some data → 2 ≤ data.length →
        ∃ data', pyLookup (CleanBackup.cleanStep oracle st venue).dict venue = some data'
          ∧ pyGet data' 0 = pyGet data 0 ∧ pyGet data' 1 = pyGet data 1)
    ∧ (∀ (uo : Nat → GetVenues.UtResp) (fo : Nat → GetVenues.FsSearchResp)
        (st : GetVenues.GetSt) (v : String × String) (other : String), other ≠ v.1 →
        pyLookup (GetVenues.getStep uo fo st v).dict other = pyLookup st.dict other)
    ∧ (∀ (oracle : Nat → CleanBackup.CleanResp) (st : CleanBackup.CleanSt)
        (venue other : String), other ≠ venue →
        pyLookup (CleanBackup.cleanStep oracle st venue).dict other
          = pyLookup st.dict other) :=
  ⟨fun uo fo st v row _ hl h0 => GetVenues.getStep_preserves_urls uo fo st v row hl h0,
   fun oracle st venue data hl hlen =>
     CleanBackup.cleanStep_preserves_urls oracle st venue data hl hlen,
   fun uo fo st v other hne => GetVenues.getStep_frame uo fo st v other hne,
   fun oracle st venue other hne => CleanBackup.cleanStep_frame oracle st venue other hne⟩

/-- C1 witness: the amended theorem instantiated at one concrete enrichment
step and one concrete premium step. -/
theorem c1_field_monotonicity_amended_witness :
    (∃ row', pyLookup (GetVenues.getStep (fun _ => GetVenues.UtResp.deleted)
        (fun _ => ⟨500, []⟩)
        ⟨[("V", ["u", "f", "", "40.0", "-75.0", "", ""])], true, 0, 0, false⟩
        ("V", "c")).dict "V" = some row'
      ∧ pyGet row' 0 = "u" ∧ pyGet row' 1 = "f")
    ∧ (∃ data', pyLookup (CleanBackup.cleanStep (fun _ => ⟨500, none⟩)
        ⟨[("V", ["u", "f", "Missing", "40.0", "-75.0", "Missing", "Missing"])], 0, false⟩
        "V").dict "V" = some data'
      ∧ pyGet data' 0 = "u" ∧ pyGet data' 1 = "f")
    ∧ pyLookup (GetVenues.getStep (fun _ => GetVenues.UtResp.deleted)
        (fun _ => ⟨500, []⟩)
        ⟨[("V", ["u", "f", "", "40.0", "-75.0", "", ""])], true, 0, 0, false⟩
        ("V", "c")).dict "W"
      = pyLookup [("V", ["u", "f", "", "40.0", "-75.0", "", ""])] "W"
    ∧ pyLookup (CleanBackup.cleanStep (fun _ => ⟨500, none⟩)
        ⟨[("V", ["u", "f", "Missing", "40.0", "-75.0", "Missing", "Missing"])], 0, false⟩
        "V").dict "W"
      = pyLookup [("V", ["u", "f", "Missing", "40.0", "-75.0", "Missing", "Missing"])] "W" := by
  obtain ⟨h1, h2, h3, h4⟩ := c1_field_monotonicity_amended
  exact ⟨h1 _ _ _ ("V", "c") ["u", "f", "", "40.0", "-75.0", "", ""] rfl (by decide) (by decide),
    h2 _ _ "V" ["u", "f", "Missing", "40.0", "-75.0", "Missing", "Missing"] (by decide) (by decide),
    h3 _ _ _ ("V", "c") "W" (by decide),
    h4 _ _ "V" "W" (by decide)⟩

/-- C2: concrete demonstration of the failing circuit breaker of the premium
pass.  Two registry rows are eligible for the premium retry; the lookup API
answers every call with a transient HTTP 500.  The break test of line 188
(`venue_dict[venue][3] == 'Missing'`) inspects the *lat* column, which after a
transient failure holds the row's preserved old coordinate (`"40.0"`), not the
`'Missing'` sentinel (that was written to the address column, index 2) — so a
second lookup call is issued after the first transient failure and the loop
never breaks, contrary to the claim and to the source's own comment
"Foursquare rejected request, stop searching Foursquare". -/
theorem c2_clean_breaker_not_tripped :
    (CleanBackup.cleanRun (fun _ => ⟨500, none⟩)
      [("V1", ["u1", "f1", "Missing", "40.0", "-75.0", "Missing", "Missing"]),
       ("V2", ["u2", "f2", "Missing", "41.0", "-76.0", "Missing", "Missing"])]).calls = 2
    ∧ (CleanBackup.cleanRun (fun _ => ⟨500, none⟩)
      [("V1", ["u1", "f1", "Missing", "40.0", "-75.0", "Missing", "Missing"]),
       ("V2", ["u2", "f2", "Missing", "41.0", "-76.0", "Missing", "Missing"])]).broke
      = false := by decide

/-- C3, counterexample.  A record whose address/categories/country fields were
marked `"Missing"` by the enrichment pass (its do-not-retry sentinel, written
e.g. when the Foursquare search authoritatively returned no matching
candidate) *is* retried automatically: the daily premium completion pass
issues one upstream fetch-by-id call for exactly such a record. -/
theorem c3_premium_retries_missing_counterexample :
    (CleanBackup.cleanRun (fun _ => ⟨500, none⟩)
      [("V", ["u", "f", "Missing", "40.0", "-75.0", "Missing", "Missing"])]).calls
      = 1 := by decide

/-- C3, amended.  The premium pass skips (issuing no upstream call and
leaving the record unchanged) every record without a `"Missing"` field — in
particular records whose absence is marked only with its own permanent
sentinel `"Unavailable"` — and every record whose lookup url is `"Missing"`;
the periodic enrichment pass never issues an upstream call for a record with
a non-empty scraped url and no Unresolved (`""`) field.  The exception to the
original claim is deliberate: records bearing the search pass's `"Missing"`
sentinel are the premium pass's work queue and are retried daily. -/
theorem c3_permanent_not_retried_amended :
    (∀ (oracle : Nat → CleanBackup.CleanResp) (st : CleanBackup.CleanSt)
        (venue : String) (data : List String),
        pyLookup st.dict venue = some data → "Missing" ∉ data →
        CleanBackup.cleanStep oracle st venue = st)
    ∧ (∀ (oracle : Nat → CleanBackup.CleanResp) (st : CleanBackup.CleanSt)
        (venue : String) (data : List String),
        pyLookup st.dict venue = some data → pyGet data 1 = "Missing" →
        CleanBackup.cleanStep oracle st venue = st)
    ∧ (∀ (uo : Nat → GetVenues.UtResp) (fo : Nat → GetVenues.FsSearchResp)
        (st : GetVenues.GetSt) (v : String × String) (row : List String),
        st.stopped = false → pyLookup st.dict v.1 = some row →
        pyGet row 0 ≠ "" → "" ∉ row →
        GetVenues.getStep uo fo st v = st) :=
  ⟨fun oracle st venue data hl hm =>
      CleanBackup.cleanStep_skip_noMissing oracle st venue data hl hm,
   fun oracle st venue data hl hu =>
      CleanBackup.cleanStep_skip_missingUrl oracle st venue data hl hu,
   fun uo fo st v row hs hl h0 hne =>
      GetVenues.getStep_resolved uo fo st v row hs hl h0 hne⟩

/-- C3 witness: an `"Unavailable"`-marked record and an all-`"Missing"`
record (lookup url `"Missing"`) are skipped by the premium step, and a
`"Missing"`-marked but fully-attempted record is skipped by the enrichment
step. -/
theorem c3_permanent_not_retried_amended_witness :
    CleanBackup.cleanStep (fun _ => ⟨500, none⟩)
      ⟨[("V", ["u", "f", "Unavailable", "40.0", "-75.0", "Unavailable", "Unavailable"])], 0, false⟩ "V"
      = ⟨[("V", ["u", "f", "Unavailable", "40.0", "-75.0", "Unavailable", "Unavailable"])], 0, false⟩
    ∧ CleanBackup.cleanStep (fun _ => ⟨500, none⟩)
      ⟨[("V", ["Missing", "Missing", "Missing", "Missing", "Missing", "Missing", "Missing"])], 0, false⟩ "V"
      = ⟨[("V", ["Missing", "Missing", "Missing", "Missing", "Missing", "Missing", "Missing"])], 0, false⟩
    ∧ GetVenues.getStep (fun _ => GetVenues.UtResp.deleted) (fun _ => ⟨500, []⟩)
      ⟨[("V", ["u", "f", "Missing", "40.0", "-75.0", "Missing", "Missing"])], true, 0, 0, false⟩
      ("V", "c")
      = ⟨[("V", ["u", "f", "Missing", "40.0", "-75.0", "Missing", "Missing"])], true, 0, 0, false⟩ := by
  obtain ⟨h1, h2, h3⟩ := c3_permanent_not_retried_amended
  exact ⟨h1 _ _ "V" ["u", "f", "Unavailable", "40.0", "-75.0", "Unavailable", "Unavailable"]
      (by decide) (by decide),
    h2 _ _ "V" ["Missing", "Missing", "Missing", "Missing", "Missing", "Missing", "Missing"]
      (by decide) (by decide),
    h3 _ _ _ ("V", "c") ["u", "f", "Missing", "40.0", "-75.0", "Missing", "Missing"]
      rfl (by decide) (by decide) (by decide)⟩

/-- C7: re-running the enrichment loop over a venue set in which every entry
maps to a fully Resolved registry row (non-empty scraped url and no field
equal to the Unresolved sentinel `""`) issues zero upstream requests: no
scrape attempt and no lookup-API call. -/
theorem c7_resolved_zero_calls (uo : Nat → GetVenues.UtResp)
    (fo : Nat → GetVenues.FsSearchResp) (venues : List (String × String))
    (dict : List (String × List String))
    (h : ∀ v ∈ venues, ∃ row, pyLookup dict v.1 = some row
      ∧ pyGet row 0 ≠ "" ∧ "" ∉ row) :
    (GetVenues.getRun uo fo venues (GetVenues.getInit dict)).utCalls = 0
    ∧ (GetVenues.getRun uo fo venues (GetVenues.getInit dict)).fsCalls = 0 := by
  rw [GetVenues.getRun_resolved_eq uo fo venues (GetVenues.getInit dict) rfl h]
  exact ⟨rfl, rfl⟩

/-- C7 witness: a one-venue fully Resolved registry processed with arbitrary
(never consulted) oracles issues zero requests. -/
theorem c7_resolved_zero_calls_witness :
    (GetVenues.getRun (fun _ => GetVenues.UtResp.transientFail) (fun _ => ⟨500, []⟩)
      [("V", "https://example.com/checkin/1")]
      (GetVenues.getInit [("V", ["u", "f", "addr", "40.0", "-75.0", "Pub", "True"])])).utCalls = 0
    ∧ (GetVenues.getRun (fun _ => GetVenues.UtResp.transientFail) (fun _ => ⟨500, []⟩)
      [("V", "https://example.com/checkin/1")]
      (GetVenues.getInit [("V", ["u", "f", "addr", "40.0", "-75.0", "Pub", "True"])])).fsCalls = 0 := by
  refine c7_resolved_zero_calls _ _ _ _ ?_
  intro v hv
  simp only [List.mem_singleton] at hv
  subst hv
  exact ⟨["u", "f", "addr", "40.0", "-75.0", "Pub", "True"], by decide, by decide, by decide⟩

/-- C8, counterexample.  There are token sequences on which the venue scanner
raises: a qualifying link token without an `href` attribute inside a
`venue-social` container triggers the uncaught `KeyError` of line 111, and a
latitude meta token without a `content` attribute triggers the `KeyError` of
line 101 — contradicting "for every token sequence, including malformed
markup, the scanner raises no error". -/
theorem c8_scanner_raises_counterexample :
    Scanner.venueScan [Scanner.Token.start "div" [("class", "venue-social")],
        Scanner.Token.start "a" [("class", "fs track-click")]]
      = Except.error "KeyError: href"
    ∧ Scanner.venueScan [Scanner.Token.start "meta"
        [("property", "place:location:latitude")]]
      = Except.error "KeyError: content" := ⟨rfl, rfl⟩

/-- C8, amended.  The scope rule behaves as claimed: entering the qualifying
container (`p`/`location`, `div`/`venue-social`) sets the found flag, any
close token of that container's tag name clears it (shallow tracking) and no
other close token does, every qualifying link token seen while the flag is
set has its href appended in document order, and a stream without a
qualifying container yields an empty result.  The checkin scanner is total
(it performs no keyed attribute access), but the venue scanner raises a
`KeyError` on a qualifying link token without `href` or a latitude/longitude
meta token without `content` (see the counterexample); on streams without a
qualifying container it yields empty urls whenever it completes. -/
theorem c8_scanner_amended :
    (∀ (st : Scanner.CheckinSt) (attrs : List (String × String)),
        st.found_p = false →
        attrs.any (fun nv => nv.1 == "class" && nv.2 == "location") = true →
        Scanner.checkinStep st (Scanner.Token.start "p" attrs)
          = { st with found_p := true })
    ∧ (∀ st : Scanner.CheckinSt,
        Scanner.checkinStep st (Scanner.Token.close "p") = { st with found_p := false })
    ∧ (∀ (st : Scanner.CheckinSt) (tag : String), tag ≠ "p" →
        Scanner.checkinStep st (Scanner.Token.close tag) = st)
    ∧ (∀ (st : Scanner.CheckinSt) (attrs : List (String × String)) (v : String),
        st.found_p = true → Scanner.attrLookup attrs "href" = some v →
        Scanner.checkinStep st (Scanner.Token.start "a" attrs)
          = { st with url := st.url ++ [v] })
    ∧ (∀ tokens : List Scanner.Token,
        (∀ attrs, Scanner.Token.start "p" attrs ∈ tokens →
          attrs.any (fun nv => nv.1 == "class" && nv.2 == "location") = false) →
        (Scanner.checkinScan tokens).url = [])
    ∧ (∀ (st : Scanner.VenueSt) (attrs : List (String × String)),
        st.found_div = false →
        Scanner.pyDictGet attrs "class" = some "venue-social" →
        Scanner.venueStep st (Scanner.Token.start "div" attrs)
          = Except.ok { st with found_div := true })
    ∧ (∀ st : Scanner.VenueSt,
        Scanner.venueStep st (Scanner.Token.close "div")
          = Except.ok { st with found_div := false })
    ∧ (∀ (st : Scanner.VenueSt) (attrs : List (String × String)) (href : String),
        st.found_div = true →
        Scanner.pyDictGet attrs "class" = some "fs track-click" →
        Scanner.pyDictGet attrs "href" = some href →
        Scanner.venueStep st (Scanner.Token.start "a" attrs)
          = Except.ok { st with urls := st.urls ++ [(pySplit href "?").headD ""] })
    ∧ (∀ (tokens : List Scanner.Token) (st' : Scanner.VenueSt),
        (∀ attrs, Scanner.Token.start "div" attrs ∈ tokens →
          Scanner.pyDictGet attrs "class" ≠ some "venue-social") →
        Scanner.venueScan tokens = Except.ok st' → st'.urls = []) := by
  refine ⟨?_, ?_, ?_, ?_, ?_, ?_, ?_, ?_, ?_⟩
  · intro st attrs h1 h2
    simp [Scanner.checkinStep, Scanner.checkinStart, h1, h2]
  · intro st
    simp [Scanner.checkinStep, Scanner.checkinClose]
  · intro st tag h
    simp [Scanner.checkinStep, Scanner.checkinClose, h]
  · intro st attrs v h1 h2
    simp [Scanner.checkinStep, Scanner.checkinStart, h1, h2]
  · exact fun tokens hq => Scanner.checkinScan_absent_empty tokens hq
  · intro st attrs h1 h2
    simp [Scanner.venueStep, Scanner.venueStart, h1, h2]
  · intro st
    simp [Scanner.venueStep, Scanner.venueClose]
  · intro st attrs href h1 h2 h3
    simp [Scanner.venueStep, Scanner.venueStart, h1, h2, h3]
  · exact fun tokens st' hq hok => Scanner.venueScan_absent_empty tokens st' hq hok

/-- C8 witness: the amended conjunction instantiated at concrete tokens —
flag set and cleared, href emitted (with its query string stripped by the
venue scanner), and empty results for streams without a qualifying
container. -/
theorem c8_scanner_amended_witness :
    Scanner.checkinStep ⟨false, []⟩
        (Scanner.Token.start "p" [("class", "location")])
      = ⟨true, []⟩
    ∧ Scanner.checkinStep ⟨true, []⟩ (Scanner.Token.close "p") = ⟨false, []⟩
    ∧ Scanner.checkinStep ⟨true, []⟩ (Scanner.Token.close "div") = ⟨true, []⟩
    ∧ Scanner.checkinStep ⟨true, []⟩
        (Scanner.Token.start "a" [("href", "/venue/1")])
      = ⟨true, ["/venue/1"]⟩
    ∧ (Scanner.checkinScan [Scanner.Token.start "p" [("class", "x")],
        Scanner.Token.start "a" [("href", "/venue/1")]]).url = []
    ∧ Scanner.venueStep ⟨false, [], []⟩
        (Scanner.Token.start "div" [("class", "venue-social")])
      = Except.ok ⟨true, [], []⟩
    ∧ Scanner.venueStep ⟨true, [], []⟩ (Scanner.Token.close "div")
      = Except.ok ⟨false, [], []⟩
    ∧ Scanner.venueStep ⟨true, [], []⟩
        (Scanner.Token.start "a"
          [("class", "fs track-click"), ("href", "https://4sq.com/v/1?x=2")])
      = Except.ok ⟨true, ["https://4sq.com/v/1"], []⟩
    ∧ (∀ st' : Scanner.VenueSt,
        Scanner.venueScan [Scanner.Token.start "div" [("class", "x")]]
          = Except.ok st' → st'.urls = []) := by
  obtain ⟨h1, h2, h3, h4, h5, h6, h7, h8, h9⟩ := c8_scanner_amended
  refine ⟨h1 ⟨false, []⟩ [("class", "location")] rfl (by decide),
    h2 ⟨true, []⟩,
    h3 ⟨true, []⟩ "div" (by decide),
    h4 ⟨true, []⟩ [("href", "/venue/1")] "/venue/1" rfl (by decide),
    h5 _ ?_,
    h6 ⟨false, [], []⟩ [("class", "venue-social")] rfl (by decide),
    h7 ⟨true, [], []⟩,
    ?_,
    fun st' hok => h9 _ st' ?_ hok⟩
  · intro attrs hm
    simp only [List.mem_cons, List.mem_singleton] at hm
    rcases hm with h | h | h
    · injection h with htag hattrs
      subst hattrs
      decide
    · injection h with htag hattrs
      exact absurd htag (by decide)
    · exact absurd h (List.not_mem_nil _)
  · have := h8 ⟨true, [], []⟩
      [("class", "fs track-click"), ("href", "https://4sq.com/v/1?x=2")]
      "https://4sq.com/v/1?x=2" rfl (by decide) (by decide)
    simpa using this
  · intro attrs hm
    simp only [List.mem_singleton] at hm
    injection hm with htag hattrs
    subst hattrs
    decide

/-- C9: whether the enrichment loop stops after any number `k` of venue
iterations (operator interruption between iterations, circuit-breaker break,
or normal exhaustion), the final unconditional persist writes exactly the
registry state reached at that point: one CSV row per registry entry, venue
names pairwise distinct (given a well-formed initial registry), and a name/row
pair is in the registry iff its row is in the written CSV — no loss, no
duplication. -/
theorem c9_checkpoint_exact (uo : Nat → GetVenues.UtResp)
    (fo : Nat → GetVenues.FsSearchResp) (venues : List (String × String))
    (dict : List (String × List String)) (k : Nat)
    (h : (dict.map Prod.fst).Nodup) :
    ((((GetVenues.getRun uo fo (venues.take k) (GetVenues.getInit dict)).dict).map Prod.fst).Nodup)
    ∧ (GetVenues.csvRows ((GetVenues.getRun uo fo (venues.take k) (GetVenues.getInit dict)).dict)).length
        = ((GetVenues.getRun uo fo (venues.take k) (GetVenues.getInit dict)).dict).length
    ∧ ∀ n row, (n, row) ∈ (GetVenues.getRun uo fo (venues.take k) (GetVenues.getInit dict)).dict
        ↔ (n :: row) ∈ GetVenues.csvRows ((GetVenues.getRun uo fo (venues.take k) (GetVenues.getInit dict)).dict) :=
  ⟨GetVenues.getRun_nodup uo fo _ _ h, by simp [GetVenues.csvRows],
    fun n row => GetVenues.mem_csvRows _ n row⟩

/-- C9 witness: a run over one venue, stopped after one iteration, persists
exactly the one resolved-to-`Missing` record. -/
theorem c9_checkpoint_exact_witness :
    ((((GetVenues.getRun (fun _ => GetVenues.UtResp.deleted) (fun _ => ⟨500, []⟩)
        ([(("W" : String), ("c" : String))].take 1)
        (GetVenues.getInit [])).dict).map Prod.fst).Nodup)
    ∧ (GetVenues.csvRows ((GetVenues.getRun (fun _ => GetVenues.UtResp.deleted) (fun _ => ⟨500, []⟩)
        ([(("W" : String), ("c" : String))].take 1)
        (GetVenues.getInit [])).dict)).length
        = ((GetVenues.getRun (fun _ => GetVenues.UtResp.deleted) (fun _ => ⟨500, []⟩)
        ([(("W" : String), ("c" : String))].take 1)
        (GetVenues.getInit [])).dict).length
    ∧ (("W", ["Missing", "Missing", "Missing", "Missing", "Missing", "Missing", "Missing"])
          ∈ (GetVenues.getRun (fun _ => GetVenues.UtResp.deleted) (fun _ => ⟨500, []⟩)
        ([(("W" : String), ("c" : String))].take 1)
        (GetVenues.getInit [])).dict
        ↔ ("W" :: ["Missing", "Missing", "Missing", "Missing", "Missing", "Missing", "Missing"])
          ∈ GetVenues.csvRows ((GetVenues.getRun (fun _ => GetVenues.UtResp.deleted) (fun _ => ⟨500, []⟩)
        ([(("W" : String), ("c" : String))].take 1)
        (GetVenues.getInit [])).dict)) := by
  obtain ⟨a, b, c⟩ := c9_checkpoint_exact (fun _ => GetVenues.UtResp.deleted)
    (fun _ => ⟨500, []⟩) [(("W" : String), ("c" : String))] [] 1 (by decide)
  exact ⟨a, b, c "W" ["Missing", "Missing", "Missing", "Missing", "Missing", "Missing", "Missing"]⟩

/-- C10: every failure outcome of a lookup-API call — transient non-success in
either pass, authoritative HTTP 400 (id no longer exists), no matching search
candidate or privacy-restricted missing keys (`findMatch` exhausts the
candidates), and a payload missing the venue/location/categories path —
returns the venue's previously known latitude and longitude unchanged in the
coordinate columns, writing failure sentinels only into the address,
categories, and country-match columns. -/
theorem c10_failure_preserves_coords :
    (∀ (venue : String) (venue_info : List String) (resp : GetVenues.FsSearchResp),
        pyGet venue_info 1 ≠ "Missing" → resp.status ≠ 200 →
        GetVenues.search_foursquare venue venue_info resp
          = ["", pyGet venue_info 3, pyGet venue_info 4, "", ""])
    ∧ (∀ (venue : String) (venue_info : List String) (resp : GetVenues.FsSearchResp),
        pyGet venue_info 1 ≠ "Missing" → resp.status = 200 →
        GetVenues.findMatch resp.venues
          ((pySplit (pyGet venue_info 1) "/").getLast?.getD "") = none →
        GetVenues.search_foursquare venue venue_info resp
          = ["Missing", pyGet venue_info 3, pyGet venue_info 4, "Missing", "Missing"])
    ∧ (∀ (url c0 c1 : String) (resp : CleanBackup.CleanResp), resp.status = 400 →
        CleanBackup.search_foursquare url [c0, c1] resp
          = ["Unavailable", c0, c1, "Unavailable", "Unavailable"])
    ∧ (∀ (url c0 c1 : String) (resp : CleanBackup.CleanResp),
        resp.status ≠ 400 → resp.status ≠ 200 →
        CleanBackup.search_foursquare url [c0, c1] resp
          = ["Missing", c0, c1, "Missing", "Missing"])
    ∧ (∀ (url c0 c1 : String) (resp : CleanBackup.CleanResp),
        resp.status = 200 → resp.payload = none →
        CleanBackup.search_foursquare url [c0, c1] resp
          = ["Unavailable", c0, c1, "Unavailable", "Unavailable"]) := by
  refine ⟨?_, ?_, ?_, ?_, ?_⟩
  · intro venue venue_info resp h1 h2
    simp [GetVenues.search_foursquare, h1, h2]
  · intro venue venue_info resp h1 h2 h3
    simp [GetVenues.search_foursquare, h1, h2, h3]
  · intro url c0 c1 resp h
    simp [CleanBackup.search_foursquare, h]
  · intro url c0 c1 resp h1 h2
    simp [CleanBackup.search_foursquare, h1, h2]
  · intro url c0 c1 resp h1 h2
    simp [CleanBackup.search_foursquare, h1, h2]

/-- C10 witness: each failure outcome evaluated at concrete coordinates
`40.0`/`-75.0`, which reappear unchanged in the result row. -/
theorem c10_failure_preserves_coords_witness :
    GetVenues.search_foursquare "V" ["u", "f", "", "40.0", "-75.0", "", ""] ⟨500, []⟩
      = ["", "40.0", "-75.0", "", ""]
    ∧ GetVenues.search_foursquare "V" ["u", "f", "", "40.0", "-75.0", "", ""] ⟨200, []⟩
      = ["Missing", "40.0", "-75.0", "Missing", "Missing"]
    ∧ CleanBackup.search_foursquare "f" ["40.0", "-75.0"] ⟨400, none⟩
      = ["Unavailable", "40.0", "-75.0", "Unavailable", "Unavailable"]
    ∧ CleanBackup.search_foursquare "f" ["40.0", "-75.0"] ⟨500, none⟩
      = ["Missing", "40.0", "-75.0", "Missing", "Missing"]
    ∧ CleanBackup.search_foursquare "f" ["40.0", "-75.0"] ⟨200, none⟩
      = ["Unavailable", "40.0", "-75.0", "Unavailable", "Unavailable"] := by
  obtain ⟨h1, h2, h3, h4, h5⟩ := c10_failure_preserves_coords
  exact ⟨h1 "V" _ _ (by decide) (by decide),
    h2 "V" _ _ (by decide) (by decide) rfl,
    h3 "f" "40.0" "-75.0" _ (by decide),
    h4 "f" "40.0" "-75.0" _ (by decide) (by decide),
    h5 "f" "40.0" "-75.0" _ (by decide) rfl⟩
